import Mathlib

/-!
Verification development for the traffic-light polling loop (IO_loop.py).

The embedding below translates the program's pure logic into Lean:

* Instants are integers (seconds since the Unix epoch); the timestamp
  normalizer iso_utc is embedded as an executable parser over the ISO-8601
  subset the source handles (YYYY-MM-DDTHH:MM:SS with an optional trailing
  Z or an explicit +HH:MM / -HH:MM offset), returning none on a string
  outside that grammar (Python raises ValueError there).
* The hardware stubs (led_ok, led_error_blink, buzzer_error, self test
  signals) and the 55-second countdown are modelled as an event trace: each
  poll cycle returns the list of Indicator-Driver calls it performs.
* The body of the while-loop in main (lines 149-194) becomes the function
  step: it receives the current wall clock, the outcome of the fetch
  (either an exception or the parsed row list) and the loop state, and
  returns the new state with the emitted events.  Python exception flow is
  embedded explicitly: a mutation performed before a raise survives, and
  the except-handler at the loop boundary signals failure_mode only when
  in_failure was still false.
* The startup probe (lines 128-147) becomes the function startup.
* fetch_latest_rows is embedded over an oracle of network responses: the
  result of the first GET, the result of the token refresh, and the result
  of the retried GET.
* Logging text and the Europe/Berlin display conversion have no effect on
  the state machine and are not modelled.
-/

namespace TrafficLight

/-! ## Time/Value Normalizer (iso_utc, lines 17-25) -/

def digitVal (c : Char) : Option Nat :=
  if c.isDigit then some (c.toNat - 48) else none

def parse2 : List Char → Option (Nat × List Char)
  | a :: b :: rest => do
      let x ← digitVal a
      let y ← digitVal b
      pure (10 * x + y, rest)
  | _ => none

def parse4 : List Char → Option (Nat × List Char)
  | a :: b :: c :: d :: rest => do
      let x ← digitVal a
      let y ← digitVal b
      let z ← digitVal c
      let w ← digitVal d
      pure (1000 * x + 100 * y + 10 * z + w, rest)
  | _ => none

def expectChar (c : Char) : List Char → Option (List Char)
  | x :: rest => if x = c then some rest else none
  | [] => none

def isLeap (y : Nat) : Bool :=
  decide ((y % 4 = 0 ∧ ¬ y % 100 = 0) ∨ y % 400 = 0)

def daysInMonth (y m : Nat) : Nat :=
  if m = 2 then (if isLeap y then 29 else 28)
  else if m = 4 ∨ m = 6 ∨ m = 9 ∨ m = 11 then 30
  else 31

def daysBeforeMonth (y m : Nat) : Nat :=
  (List.range (m - 1)).foldl (fun acc i => acc + daysInMonth y (i + 1)) 0

def daysBeforeYear (y : Nat) : Nat :=
  365 * (y - 1) + (y - 1) / 4 - (y - 1) / 100 + (y - 1) / 400

def toOrdinalDay (y m d : Nat) : Nat :=
  daysBeforeYear y + daysBeforeMonth y m + (d - 1)

def EPOCH_DAY : Nat := toOrdinalDay 1970 1 1

/-- Seconds since 1970-01-01T00:00:00 of a naive (offset-free) date-time. -/
def naiveEpochSecs (y m d h mi s : Nat) : Int :=
  ((toOrdinalDay y m d : Int) - (EPOCH_DAY : Int)) * 86400
    + ((h * 3600 + mi * 60 + s : Nat) : Int)

def validDate (y m d h mi s : Nat) : Bool :=
  decide (1 ≤ y ∧ 1 ≤ m ∧ m ≤ 12 ∧ 1 ≤ d ∧ d ≤ daysInMonth y m ∧
          h ≤ 23 ∧ mi ≤ 59 ∧ s ≤ 59)

/-- Optional trailing UTC offset: nothing, or +HH:MM / -HH:MM.
Returns the offset in seconds; none of the value means no offset (a naive
date-time in Python terms). -/
def parseOffset : List Char → Option (Option Int)
  | [] => some none
  | c :: rest =>
    if c = '+' ∨ c = '-' then do
      let (oh, r1) ← parse2 rest
      let r2 ← expectChar ':' r1
      let (om, r3) ← parse2 r2
      match r3 with
      | [] =>
        if oh ≤ 23 ∧ om ≤ 59 then
          some (some (if c = '-' then -(((oh * 3600 + om * 60 : Nat)) : Int)
                      else ((oh * 3600 + om * 60 : Nat) : Int)))
        else none
      | _ => none
    else none

/-- datetime.fromisoformat on the grammar the source relies on: returns the
naive epoch seconds together with the explicit offset when present. -/
def fromisoformat (cs : List Char) : Option (Int × Option Int) := do
  let (y, r1) ← parse4 cs
  let r2 ← expectChar '-' r1
  let (m, r3) ← parse2 r2
  let r4 ← expectChar '-' r3
  let (d, r5) ← parse2 r4
  let r6 ← expectChar 'T' r5
  let (h, r7) ← parse2 r6
  let r8 ← expectChar ':' r7
  let (mi, r9) ← parse2 r8
  let r10 ← expectChar ':' r9
  let (s, r11) ← parse2 r10
  if validDate y m d h mi s then
    let off ← parseOffset r11
    pure (naiveEpochSecs y m d h mi s, off)
  else none

def PLUS0000 : List Char := ['+', '0', '0', ':', '0', '0']

/-- iso_utc (lines 17-25) over the character list of the input: a trailing
Z is rewritten to +00:00, the string is parsed, a missing offset is assumed
UTC, and the result is normalized to UTC (naive seconds minus offset). -/
def iso_utc_chars (cs : List Char) : Option Int :=
  match fromisoformat (if cs.getLast? = some 'Z' then cs.dropLast ++ PLUS0000 else cs) with
  | none => none
  | some (naive, off) =>
    some (naive - (match off with | none => 0 | some o => o))

def iso_utc (ts : String) : Option Int := iso_utc_chars ts.data

/-! ## Value map and indicator output (lines 49-89) -/

def VALUE_MAP (l : String) : Option Int :=
  if l = "BLUE" then some 0
  else if l = "GREEN_POS" then some 1
  else if l = "GREEN_NEG" then some (-1)
  else if l = "YELLOW_POS" then some 2
  else if l = "YELLOW_NEG" then some (-2)
  else if l = "RED_POS" then some 3
  else if l = "RED_NEG" then some (-3)
  else none

/-- Which reason string failure_mode was given; each constructor mirrors one
distinct f-string of the source. -/
inductive Reason where
  | emptyResponse
  | unknownValue (v : Option String)
  | staleData
  | exception
  | startupEmpty
  | startupStale
  | startupError
deriving DecidableEq, Repr

/-- One Indicator-Driver call (hardware stub invocation) or settle hold. -/
inductive Event where
  | selfTestStart
  | selfTestPass
  | selfTestFail
  | renderState (color : String)
  | renderFailure (r : Reason)
  | settleHold
deriving DecidableEq, Repr

/-- The if-chain of apply_state (lines 71-84): LED events for magnitude v. -/
def led_color (v : Int) : List Event :=
  if v = 0 then [Event.renderState "blue"]
  else if v = 1 then [Event.renderState "green"]
  else if v = -1 then [Event.renderState "green"]
  else if v = 2 then [Event.renderState "yellow"]
  else if v = -2 then [Event.renderState "yellow"]
  else if v = 3 then [Event.renderState "red"]
  else if v = -3 then [Event.renderState "red"]
  else []

/-- apply_state (lines 69-84): VALUE_MAP lookup then LED output; none models
the KeyError raised on an unknown label. -/
def apply_state (api_value : String) : Option (List Event) :=
  (VALUE_MAP api_value).map led_color

/-! ## Data model of the loop -/

/-- One row of the API response; From and To are the raw timestamp strings,
Value is the optional label (latest.get of the source returns None when the
key is absent). -/
structure Row where
  From : String
  To : String
  Value : Option String
deriving DecidableEq, Repr

/-- Outcome of one fetch_latest_rows call as seen by the loop body: either
an exception or the parsed row list. -/
inductive FetchOutcome where
  | error
  | rows (rs : List Row)
deriving DecidableEq, Repr

structure LoopState where
  last_to : Option Int
  in_failure : Bool
  first_after_start : Bool
deriving DecidableEq, Repr

/-- STALE_AFTER = timedelta(minutes=2), in seconds. -/
def STALE_AFTER : Int := 120

/-- The staleness test of lines 136 and 182-183: age strictly above the
threshold counts as stale. -/
def isStale (now latest_to : Int) : Bool :=
  decide (STALE_AFTER < now - latest_to)

/-- The application guard of line 164: last_to is None or latest_to is
strictly newer. -/
def newer : Option Int → Int → Bool
  | none, _ => true
  | some a, t => decide (a < t)

/-! ## The steady-state loop body (lines 149-194) -/

def step (now : Int) (fo : FetchOutcome) (s : LoopState) : LoopState × List Event :=
  match fo with
  | FetchOutcome.error =>
    if s.in_failure then (s, [])
    else ({ s with in_failure := true }, [Event.renderFailure Reason.exception])
  | FetchOutcome.rows rs =>
    match rs.getLast? with
    | none =>
      if s.in_failure then (s, [])
      else ({ s with in_failure := true }, [Event.renderFailure Reason.emptyResponse])
    | some latest =>
      match latest.Value with
      | none =>
        if s.in_failure then (s, [])
        else ({ s with in_failure := true },
              [Event.renderFailure (Reason.unknownValue none)])
      | some val =>
        match VALUE_MAP val with
        | none =>
          if s.in_failure then (s, [])
          else ({ s with in_failure := true },
                [Event.renderFailure (Reason.unknownValue (some val))])
        | some v =>
          match iso_utc latest.To with
          | none =>
            -- ValueError from iso_utc(latest["To"]) reaches the handler.
            if s.in_failure then (s, [])
            else ({ s with in_failure := true },
                  [Event.renderFailure Reason.exception])
          | some latest_to =>
            if newer s.last_to latest_to then
              let applied := led_color v
              match iso_utc latest.From with
              | none =>
                -- ValueError from iso_utc(latest["From"]) after last_to was
                -- already updated and the state applied; the stale check and
                -- the failure-clearing branch are skipped.
                if s.in_failure then
                  ({ s with last_to := some latest_to }, applied)
                else
                  ({ s with last_to := some latest_to, in_failure := true },
                   applied ++ [Event.renderFailure Reason.exception])
              | some _ =>
                let holdEvs := if s.first_after_start then [] else [Event.settleHold]
                if isStale now latest_to then
                  if s.in_failure then
                    ({ s with last_to := some latest_to, first_after_start := false },
                     applied ++ holdEvs)
                  else
                    ({ s with last_to := some latest_to, first_after_start := false,
                              in_failure := true },
                     applied ++ holdEvs ++ [Event.renderFailure Reason.staleData])
                else
                  ({ s with last_to := some latest_to, first_after_start := false,
                            in_failure := false },
                   applied ++ holdEvs)
            else
              if isStale now latest_to then
                if s.in_failure then (s, [])
                else ({ s with in_failure := true },
                      [Event.renderFailure Reason.staleData])
              else
                ({ s with in_failure := false }, [])

/-! ## The startup probe (lines 122-147) -/

def startup (now : Int) (fo : FetchOutcome) : LoopState × List Event :=
  let s0 : LoopState := { last_to := none, in_failure := false, first_after_start := true }
  match fo with
  | FetchOutcome.error =>
    ({ s0 with in_failure := true },
     [Event.selfTestFail, Event.renderFailure Reason.startupError])
  | FetchOutcome.rows rs =>
    match rs.getLast? with
    | none =>
      ({ s0 with in_failure := true },
       [Event.selfTestFail, Event.renderFailure Reason.startupEmpty])
    | some latest =>
      match iso_utc latest.To with
      | none =>
        ({ s0 with in_failure := true },
         [Event.selfTestFail, Event.renderFailure Reason.startupError])
      | some latest_to =>
        if isStale now latest_to then
          ({ s0 with in_failure := true },
           [Event.selfTestFail, Event.renderFailure Reason.startupStale])
        else
          -- self_test_success() fires, then apply_state(latest["Value"]).
          match latest.Value with
          | none =>
            ({ s0 with in_failure := true },
             [Event.selfTestPass, Event.selfTestFail,
              Event.renderFailure Reason.startupError])
          | some val =>
            -- apply_state(latest["Value"]) inlined: the VALUE_MAP lookup
            -- (KeyError when absent) followed by the LED if-chain.
            match VALUE_MAP val with
            | none =>
              -- KeyError inside apply_state; last_to was not yet assigned.
              ({ s0 with in_failure := true },
               [Event.selfTestPass, Event.selfTestFail,
                Event.renderFailure Reason.startupError])
            | some v =>
              match iso_utc latest.From with
              | none =>
                -- ValueError while formatting the log line, after last_to
                -- and in_failure were assigned.
                ({ s0 with last_to := some latest_to, in_failure := true },
                 Event.selfTestPass :: led_color v ++
                   [Event.selfTestFail, Event.renderFailure Reason.startupError])
              | some _ =>
                ({ s0 with last_to := some latest_to, in_failure := false },
                 Event.selfTestPass :: led_color v)

/-! ## Whole runs -/

def runLoop : LoopState → List (Int × FetchOutcome) → LoopState × List Event
  | s, [] => (s, [])
  | s, (now, fo) :: rest =>
    ((runLoop (step now fo s).1 rest).1,
     (step now fo s).2 ++ (runLoop (step now fo s).1 rest).2)

/-- The loop states after each cycle. -/
def runStates : LoopState → List (Int × FetchOutcome) → List LoopState
  | _, [] => []
  | s, (now, fo) :: rest => (step now fo s).1 :: runStates (step now fo s).1 rest

/-- A full run: self_test_start, the startup probe, then the poll cycles. -/
def run (now0 : Int) (fo0 : FetchOutcome) (cs : List (Int × FetchOutcome)) :
    LoopState × List Event :=
  ((runLoop (startup now0 fo0).1 cs).1,
   Event.selfTestStart :: (startup now0 fo0).2 ++ (runLoop (startup now0 fo0).1 cs).2)

/-! ## The Data Fetcher (fetch_latest_rows, lines 91-112)

The network is an oracle: the caller supplies the response of the first
GET, the outcome of the token refresh, and the response of the retried GET
(the last two are consulted only on a 401-class rejection of the first). -/

/-- Outcome of one HTTP data request: parsed rows on 2xx, an HTTPError with
its status from raise_for_status, or a non-HTTP network error (timeout,
connection reset) that the except clause of the source does not catch. -/
inductive ReqResult where
  | success (rows : List Row)
  | httpError (status : Nat)
  | netError
deriving DecidableEq, Repr

/-- Outcome of get_token: a fresh bearer token, or a raised AuthError. -/
inductive TokenResult where
  | token (t : String)
  | authError
deriving DecidableEq, Repr

/-- fetch_latest_rows: returns (rows, possibly-refreshed credential), or
propagates the error.  Only a 401 on the first attempt triggers the single
refresh-and-retry; every failure of the refresh or of the retry, and every
other error of the first attempt, propagates. -/
def fetch_latest_rows (tok : String) (first : ReqResult) (tokenRes : TokenResult)
    (retry : ReqResult) : Except Unit (List Row × String) :=
  match first with
  | ReqResult.success rows => Except.ok (rows, tok)
  | ReqResult.httpError status =>
    if status = 401 then
      match tokenRes with
      | TokenResult.authError => Except.error ()
      | TokenResult.token new_token =>
        match retry with
        | ReqResult.success rows => Except.ok (rows, new_token)
        | _ => Except.error ()
    else Except.error ()
  | ReqResult.netError => Except.error ()

/-! ## Trace observations used by the claims -/

/-- Number of failure_mode invocations (renderFailure events) in a trace. -/
def countFailures : List Event → Nat
  | [] => 0
  | Event.renderFailure _ :: rest => countFailures rest + 1
  | _ :: rest => countFailures rest

/-- Number of apply_state LED renders (renderState events) in a trace. -/
def countStates : List Event → Nat
  | [] => 0
  | Event.renderState _ :: rest => countStates rest + 1
  | _ :: rest => countStates rest

/-- Number of settle holds (55-second countdowns) in a trace. -/
def countHolds : List Event → Nat
  | [] => 0
  | Event.settleHold :: rest => countHolds rest + 1
  | _ :: rest => countHolds rest

/-- Scan of an event trace checking that every segment strictly between two
consecutive renderState events holds at most one renderFailure.  The Bool
argument records whether a renderState was seen yet, the Nat counts the
failure signals since the last renderState. -/
def dedupAux : Bool → Nat → List Event → Bool
  | _, _, [] => true
  | seen, cnt, Event.renderState _ :: rest =>
    if seen ∧ 2 ≤ cnt then false else dedupAux true 0 rest
  | seen, cnt, Event.renderFailure _ :: rest =>
    dedupAux seen (if seen then cnt + 1 else 0) rest
  | seen, cnt, _ :: rest => dedupAux seen cnt rest

/-- The property text of the spec: count of renderFailure calls between two
consecutive renderState calls is at most 1. -/
def dedupOk (tr : List Event) : Bool := dedupAux false 0 tr

/-- The UTC end-instant of the latest fetched row, when the fetch produced
rows and that row's To timestamp parses. -/
def latestTo (fo : FetchOutcome) : Option Int :=
  match fo with
  | FetchOutcome.error => none
  | FetchOutcome.rows rs =>
    match rs.getLast? with
    | none => none
    | some latest => iso_utc latest.To

/-- The instant this cycle would apply: the latest row's parsed To when the
fetch produced rows, the label is known, and the application guard of line
164 holds. -/
def appliesTo (fo : FetchOutcome) (s : LoopState) : Option Int :=
  match fo with
  | FetchOutcome.error => none
  | FetchOutcome.rows rs =>
    match rs.getLast? with
    | none => none
    | some latest =>
      match latest.Value with
      | none => none
      | some val =>
        match VALUE_MAP val with
        | none => none
        | some _ =>
          match iso_utc latest.To with
          | none => none
          | some t => if newer s.last_to t then some t else none

/-- Whether the latest row's From timestamp parses (line 167 succeeds). -/
def fromOk (fo : FetchOutcome) : Bool :=
  match fo with
  | FetchOutcome.error => false
  | FetchOutcome.rows rs =>
    match rs.getLast? with
    | none => false
    | some latest => (iso_utc latest.From).isSome

/-! ## Concrete inputs used by counterexamples and witnesses -/

/-- The instant 2025-09-08T13:23:00Z. -/
def cT : Int := naiveEpochSecs 2025 9 8 13 23 0

def cRowA : Row :=
  { From := "2025-09-08T13:13:00Z", To := "2025-09-08T13:23:00Z", Value := some "BLUE" }

def cRowB : Row :=
  { From := "2025-09-08T13:23:00Z", To := "2025-09-08T13:24:00Z", Value := some "GREEN_POS" }

/-- A row whose From timestamp is not ISO-8601 (iso_utc raises on it). -/
def cRowG : Row :=
  { From := "garbage", To := "2025-09-08T13:23:00Z", Value := some "BLUE" }

/-- A row carrying a label outside VALUE_MAP. -/
def cRowP : Row :=
  { From := "2025-09-08T13:13:00Z", To := "2025-09-08T13:23:00Z", Value := some "PURPLE" }

/-! ## Helper lemmas on event traces -/

theorem countFailures_append (a b : List Event) :
    countFailures (a ++ b) = countFailures a + countFailures b := by
  induction a with
  | nil => simp [countFailures]
  | cons e rest ih =>
    cases e
    all_goals simp [countFailures, ih]
    all_goals omega

theorem countFailures_led_color (v : Int) : countFailures (led_color v) = 0 := by
  unfold led_color
  repeat' split
  all_goals rfl

theorem settleHold_notin_led_color (v : Int) : Event.settleHold ∉ led_color v := by
  unfold led_color
  repeat' split
  all_goals simp

theorem renderFailure_notin_led_color (r : Reason) (v : Int) :
    Event.renderFailure r ∉ led_color v := by
  unfold led_color
  repeat' split
  all_goals simp

/-! ## Per-cycle lemmas about step -/

/-- A single poll cycle invokes failure_mode at most once. -/
theorem step_countFailures_le_one (now : Int) (fo : FetchOutcome) (s : LoopState) :
    countFailures (step now fo s).2 ≤ 1 := by
  unfold step
  repeat' split
  all_goals simp_all [countFailures, countFailures_append, countFailures_led_color]

/-- A poll cycle that invokes failure_mode leaves in_failure set. -/
theorem step_in_failure_of_fail (now : Int) (fo : FetchOutcome) (s : LoopState)
    (h : 0 < countFailures (step now fo s).2) : (step now fo s).1.in_failure = true := by
  unfold step at h ⊢
  repeat' split at h
  all_goals simp_all [countFailures, countFailures_append, countFailures_led_color]

/-- A poll cycle entered with in_failure already set never invokes
failure_mode (every call is guarded by the not-in_failure test). -/
theorem step_no_fail_of_in_failure (now : Int) (fo : FetchOutcome) (s : LoopState)
    (h : s.in_failure = true) : countFailures (step now fo s).2 = 0 := by
  unfold step
  repeat' split
  all_goals simp_all [countFailures, countFailures_append, countFailures_led_color]

/-- last_to either survives a cycle unchanged or is overwritten by an
instant that passes the strictly-newer guard of line 164. -/
theorem step_last_to (now : Int) (fo : FetchOutcome) (s : LoopState) :
    (step now fo s).1.last_to = s.last_to ∨
    ∃ t, (step now fo s).1.last_to = some t ∧ newer s.last_to t = true := by
  unfold step
  repeat' split
  all_goals simp_all

/-! ## Run-level lemmas -/

/-- A run that starts inside failure mode and never clears it emits no
failure signal at all. -/
theorem runLoop_no_fail (cs : List (Int × FetchOutcome)) : ∀ s : LoopState,
    s.in_failure = true →
    (∀ s' ∈ runStates s cs, s'.in_failure = true) →
    countFailures (runLoop s cs).2 = 0 := by
  induction cs with
  | nil => intro s _ _; rfl
  | cons c rest ih =>
    obtain ⟨now, fo⟩ := c
    intro s hs hall
    simp only [runLoop, countFailures_append]
    rw [step_no_fail_of_in_failure now fo s hs]
    rw [ih (step now fo s).1
      (hall _ (by simp [runStates]))
      (fun s' h' => hall s' (by simp [runStates]; right; exact h'))]

/-- Failure de-duplication over a window with no clearing cycle: if every
cycle of the window ends with in_failure still set, failure_mode fires at
most once in the whole window. -/
theorem runLoop_dedup (cs : List (Int × FetchOutcome)) : ∀ s : LoopState,
    (∀ s' ∈ runStates s cs, s'.in_failure = true) →
    countFailures (runLoop s cs).2 ≤ 1 := by
  induction cs with
  | nil => intro s _; simp [runLoop, countFailures]
  | cons c rest ih =>
    obtain ⟨now, fo⟩ := c
    intro s hall
    simp only [runLoop, countFailures_append]
    by_cases h0 : countFailures (step now fo s).2 = 0
    · rw [h0]
      simpa using ih (step now fo s).1
        (fun s' h' => hall s' (by simp [runStates]; right; exact h'))
    · have h1 : (step now fo s).1.in_failure = true :=
        step_in_failure_of_fail now fo s (Nat.pos_of_ne_zero h0)
      have h2 := runLoop_no_fail rest (step now fo s).1 h1
        (fun s' h' => hall s' (by simp [runStates]; right; exact h'))
      have h3 := step_countFailures_le_one now fo s
      omega

/-- Monotonicity of last_to over any run, once it is set. -/
theorem runLoop_mono (cs : List (Int × FetchOutcome)) : ∀ (s : LoopState) (a : Int),
    s.last_to = some a →
    ∃ b, (runLoop s cs).1.last_to = some b ∧ a ≤ b := by
  induction cs with
  | nil => intro s a ha; exact ⟨a, ha, le_refl a⟩
  | cons c rest ih =>
    obtain ⟨now, fo⟩ := c
    intro s a ha
    simp only [runLoop]
    rcases step_last_to now fo s with h | ⟨t, ht, hnew⟩
    · exact ih _ a (by rw [h, ha])
    · have hat : a < t := by
        unfold newer at hnew
        rw [ha] at hnew
        exact of_decide_eq_true hnew
      obtain ⟨b, hb, htb⟩ := ih _ t ht
      exact ⟨b, hb, le_trans (le_of_lt hat) htb⟩

/-! ## Claims -/

/-- C1, as stated, is false on the code: a run exists in which two
renderFailure calls fall strictly between two consecutive renderState
calls.  The startup probe applies a state; a fetch error signals failure; a
healthy poll whose row is not strictly newer clears in_failure at line 188
without rendering any state; a second fetch error signals failure again;
only then a strictly newer row renders the next state. -/
theorem C1_counterexample :
    dedupOk (run (cT + 30) (FetchOutcome.rows [cRowA])
      [ (cT + 32, FetchOutcome.error),
        (cT + 34, FetchOutcome.rows [cRowA]),
        (cT + 36, FetchOutcome.error),
        (cT + 38, FetchOutcome.rows [cRowB]) ]).2 = false := by decide

/-- C1 (amended): failure signalling is de-duplicated between clearing
polls, not between renders: over any window of poll cycles in which no
cycle ends with in_failure cleared, failure_mode is invoked at most once,
however many failing polls of whatever reasons occur. -/
theorem C1_theorem (s : LoopState) (cs : List (Int × FetchOutcome))
    (h : ∀ s' ∈ runStates s cs, s'.in_failure = true) :
    countFailures (runLoop s cs).2 ≤ 1 :=
  runLoop_dedup cs s h

theorem C1_witness :
    (∀ s' ∈ runStates { last_to := none, in_failure := false, first_after_start := true }
        [(0, FetchOutcome.error), (1, FetchOutcome.error)], s'.in_failure = true) ∧
    countFailures (runLoop { last_to := none, in_failure := false, first_after_start := true }
        [(0, FetchOutcome.error), (1, FetchOutcome.error)]).2 ≤ 1 :=
  ⟨by decide,
   C1_theorem { last_to := none, in_failure := false, first_after_start := true }
     [(0, FetchOutcome.error), (1, FetchOutcome.error)] (by decide)⟩

/-- C5: last_to never decreases across the life of the loop: a cycle either
leaves it unchanged or overwrites it with a strictly greater instant (or
sets it for the first time), and over any run it is non-decreasing once
set. -/
theorem C5_theorem :
    (∀ (now : Int) (fo : FetchOutcome) (s : LoopState),
      (step now fo s).1.last_to = s.last_to ∨
      ∃ t, (step now fo s).1.last_to = some t ∧ newer s.last_to t = true) ∧
    (∀ (s : LoopState) (cs : List (Int × FetchOutcome)) (a : Int),
      s.last_to = some a →
      ∃ b, (runLoop s cs).1.last_to = some b ∧ a ≤ b) :=
  ⟨step_last_to, fun s cs a ha => runLoop_mono cs s a ha⟩

theorem C5_witness :
    ({ last_to := some cT, in_failure := false, first_after_start := false } : LoopState).last_to
        = some cT ∧
    ∃ b, (runLoop { last_to := some cT, in_failure := false, first_after_start := false }
        [(cT + 90, FetchOutcome.rows [cRowB])]).1.last_to = some b ∧ cT ≤ b :=
  ⟨rfl,
   C5_theorem.2 { last_to := some cT, in_failure := false, first_after_start := false }
     [(cT + 90, FetchOutcome.rows [cRowB])] cT rfl⟩

/-- C6: with the threshold fixed at 2 minutes, an end-instant of exactly
now - 2m1s is classified stale, one of exactly now - 1m59s is not; at the
loop level the first drives a failure transition with the stale-data
reason, the second clears failure. -/
theorem C6_theorem :
    (∀ now : Int, isStale now (now - 121) = true ∧ isStale now (now - 119) = false) ∧
    (step (cT + 121) (FetchOutcome.rows [cRowA])
        { last_to := some cT, in_failure := false, first_after_start := false } =
      ({ last_to := some cT, in_failure := true, first_after_start := false },
       [Event.renderFailure Reason.staleData])) ∧
    (step (cT + 119) (FetchOutcome.rows [cRowA])
        { last_to := some cT, in_failure := true, first_after_start := false } =
      ({ last_to := some cT, in_failure := false, first_after_start := false }, [])) := by
  refine ⟨fun now => ⟨?_, ?_⟩, by decide, by decide⟩
  · have h : now - (now - 121) = 121 := by omega
    unfold isStale
    rw [h]
    decide
  · have h : now - (now - 119) = 119 := by omega
    unfold isStale
    rw [h]
    decide

theorem C6_witness :
    isStale cT (cT - 121) = true ∧ isStale cT (cT - 119) = false :=
  C6_theorem.1 cT

/-- C7: the three upstream variants of 2025-09-08T13:23:00 UTC normalize to
the identical UTC instant; in general a trailing Z is handled exactly like
an explicit +00:00 suffix, and a parse without an offset is assumed UTC
(the naive instant is returned unchanged). -/
theorem C7_theorem :
    (iso_utc "2025-09-08T13:23:00Z" = iso_utc "2025-09-08T13:23:00+00:00" ∧
     iso_utc "2025-09-08T13:23:00+00:00" = iso_utc "2025-09-08T13:23:00" ∧
     iso_utc "2025-09-08T13:23:00Z" = some (naiveEpochSecs 2025 9 8 13 23 0)) ∧
    (∀ cs : List Char, iso_utc_chars (cs ++ ['Z']) = iso_utc_chars (cs ++ PLUS0000)) ∧
    (∀ (cs : List Char) (n : Int), fromisoformat cs = some (n, none) →
      cs.getLast? ≠ some 'Z' → iso_utc_chars cs = some n) := by
  refine ⟨by decide, ?_, ?_⟩
  · intro cs
    have h1 : (cs ++ ['Z']).getLast? = some 'Z' := by
      rw [List.getLast?_append_cons]
      rfl
    have h2 : (cs ++ ['Z']).dropLast = cs := by simp
    have h3 : (cs ++ PLUS0000).getLast? = some '0' := by
      rw [show PLUS0000 = '+' :: ['0', '0', ':', '0', '0'] from rfl,
          List.getLast?_append_cons]
      rfl
    unfold iso_utc_chars
    rw [h1, h2, h3]
    simp
  · intro cs n h hz
    unfold iso_utc_chars
    rw [if_neg hz, h]
    simp

/-- C7 witness: the offset-free variant is parsed as a naive date-time and
assumed UTC. -/
theorem C7_witness :
    iso_utc_chars ("2025-09-08T13:23:00".data) = some (naiveEpochSecs 2025 9 8 13 23 0) :=
  C7_theorem.2.2 ("2025-09-08T13:23:00".data) (naiveEpochSecs 2025 9 8 13 23 0)
    (by decide) (by decide)

/-- C8: the label table sends RED_POS to 3 and GREEN_NEG to -1; PURPLE is
outside the seven-entry table; and for every label outside the table a
steady-state poll carrying it takes the distinct unknown-value failure
path: the cycle's entire result is pinned — the state is unchanged except
that in_failure is set, and the only event is failure_mode with the
unknown-value reason when in_failure was clear (none at all otherwise), so
no LED state is rendered (no silent magnitude-0 default) and no exception
escapes (the membership test of line 159 precedes the lookup). -/
theorem C8_theorem :
    VALUE_MAP "RED_POS" = some 3 ∧
    VALUE_MAP "GREEN_NEG" = some (-1) ∧
    VALUE_MAP "PURPLE" = none ∧
    (∀ (now : Int) (rs : List Row) (latest : Row) (val : String) (s : LoopState),
      rs.getLast? = some latest → latest.Value = some val → VALUE_MAP val = none →
      step now (FetchOutcome.rows rs) s =
        ((if s.in_failure = true then s else { s with in_failure := true }),
         (if s.in_failure = true then [] else
           [Event.renderFailure (Reason.unknownValue (some val))]))) := by
  refine ⟨rfl, rfl, rfl, ?_⟩
  intro now rs latest val s hlast hv hu
  unfold step
  repeat' split
  all_goals simp_all

theorem C8_witness :
    step (cT + 30) (FetchOutcome.rows [cRowP])
        { last_to := none, in_failure := false, first_after_start := true } =
      ({ last_to := none, in_failure := true, first_after_start := true },
       [Event.renderFailure (Reason.unknownValue (some "PURPLE"))]) := by
  have h := C8_theorem.2.2.2 (cT + 30) [cRowP] cRowP "PURPLE"
    { last_to := none, in_failure := false, first_after_start := true }
    (by decide) (by decide) (by decide)
  simpa using h

/-- C9: the fetch propagates rows with the same credential on first-try
success; on a 401 it refreshes once and retries the identical request,
returning the refreshed credential on success; a failing refresh, a failing
retry, any non-401 HTTP error, and any network error all propagate with no
further internal retry. -/
theorem C9_theorem :
    (∀ (tok : String) (rows : List Row) (tr : TokenResult) (r : ReqResult),
      fetch_latest_rows tok (ReqResult.success rows) tr r = Except.ok (rows, tok)) ∧
    (∀ (tok new_token : String) (rows : List Row),
      fetch_latest_rows tok (ReqResult.httpError 401) (TokenResult.token new_token)
        (ReqResult.success rows) = Except.ok (rows, new_token)) ∧
    (∀ (tok : String) (status : Nat) (tr : TokenResult) (r : ReqResult),
      status ≠ 401 →
      fetch_latest_rows tok (ReqResult.httpError status) tr r = Except.error ()) ∧
    (∀ (tok : String) (tr : TokenResult) (r : ReqResult),
      fetch_latest_rows tok ReqResult.netError tr r = Except.error ()) ∧
    (∀ (tok : String) (r : ReqResult),
      fetch_latest_rows tok (ReqResult.httpError 401) TokenResult.authError r
        = Except.error ()) ∧
    (∀ (tok new_token : String) (status : Nat),
      fetch_latest_rows tok (ReqResult.httpError 401) (TokenResult.token new_token)
        (ReqResult.httpError status) = Except.error ()) ∧
    (∀ (tok new_token : String),
      fetch_latest_rows tok (ReqResult.httpError 401) (TokenResult.token new_token)
        ReqResult.netError = Except.error ()) := by
  refine ⟨fun tok rows tr r => rfl, fun tok nt rows => rfl, ?_, fun tok tr r => rfl,
          fun tok r => rfl, fun tok nt status => rfl, fun tok nt => rfl⟩
  intro tok status tr r hne
  simp [fetch_latest_rows, hne]

theorem C9_witness :
    (500 : Nat) ≠ 401 ∧
    fetch_latest_rows "tok" (ReqResult.httpError 500) TokenResult.authError
      (ReqResult.success []) = Except.error () :=
  ⟨by decide,
   C9_theorem.2.2.1 "tok" 500 TokenResult.authError (ReqResult.success []) (by decide)⟩

/-- C10: a startup probe whose fetch returns a fresh latest row with an
unknown label first signals the self-test pass, then crashes inside
apply_state (the VALUE_MAP lookup), and the exception handler signals the
self-test failure and enters failure mode with the generic startup-error
reason instead of the unknown-value reason — one startup emits both the
pass and the fail signal. -/
theorem C10_theorem :
    apply_state "PURPLE" = none ∧
    startup (cT + 30) (FetchOutcome.rows [cRowP]) =
      ({ last_to := none, in_failure := true, first_after_start := true },
       [Event.selfTestPass, Event.selfTestFail,
        Event.renderFailure Reason.startupError]) := by
  decide

/-- C2, as stated, is false on the code: first_after_start is consumed only
inside the steady loop, so after the startup probe applies an observation
the first loop application still skips the settle hold — this run applies
two observations (two renderState events) with zero settle holds. -/
theorem C2_counterexample :
    countStates (run (cT + 30) (FetchOutcome.rows [cRowA])
      [(cT + 90, FetchOutcome.rows [cRowB])]).2 = 2 ∧
    countHolds (run (cT + 30) (FetchOutcome.rows [cRowA])
      [(cT + 90, FetchOutcome.rows [cRowB])]).2 = 0 := by
  decide

/-- C2 (amended): the startup-probe application never incurs a hold; in the
steady loop a cycle holds exactly when it applies an observation with the
first_after_start flag already cleared and its From timestamp parseable;
and the flag is cleared exactly by an applying cycle whose From timestamp
parses (so the first loop application — even one following a startup-probe
application — skips the hold). -/
theorem C2_theorem :
    (∀ (now : Int) (fo : FetchOutcome), Event.settleHold ∉ (startup now fo).2) ∧
    (∀ (now : Int) (fo : FetchOutcome) (s : LoopState),
      Event.settleHold ∈ (step now fo s).2 ↔
        ((appliesTo fo s).isSome = true ∧ s.first_after_start = false ∧
         fromOk fo = true)) ∧
    (∀ (now : Int) (fo : FetchOutcome) (s : LoopState),
      (step now fo s).1.first_after_start = false ↔
        (s.first_after_start = false ∨
         ((appliesTo fo s).isSome = true ∧ fromOk fo = true))) := by
  refine ⟨?_, ?_, ?_⟩
  · intro now fo
    unfold startup
    repeat' split
    all_goals simp_all [settleHold_notin_led_color]
  · intro now fo s
    unfold step
    repeat' split
    all_goals simp_all [appliesTo, fromOk, newer, settleHold_notin_led_color]
  · intro now fo s
    unfold step
    repeat' split
    all_goals simp_all [appliesTo, fromOk, newer]

theorem C2_witness :
    Event.settleHold ∈ (step (cT + 90) (FetchOutcome.rows [cRowB])
      { last_to := some cT, in_failure := false, first_after_start := false }).2 :=
  (C2_theorem.2.1 (cT + 90) (FetchOutcome.rows [cRowB])
    { last_to := some cT, in_failure := false, first_after_start := false }).mpr
    ⟨by decide, rfl, by decide⟩

/-- C3, as stated, is false on the code: a poll whose fetch succeeds with a
non-empty row list, a known label and a fresh end-instant can still leave
in_failure set — when the row passes the strictly-newer guard but its From
timestamp does not parse, the ValueError of line 167 skips the stale check
and the failure-clearing assignment of line 188. -/
theorem C3_counterexample :
    ([cRowG] : List Row) ≠ [] ∧
    cRowG.Value = some "BLUE" ∧
    (VALUE_MAP "BLUE").isSome = true ∧
    iso_utc cRowG.To = some cT ∧
    isStale (cT + 30) cT = false ∧
    (step (cT + 30) (FetchOutcome.rows [cRowG])
        { last_to := none, in_failure := true, first_after_start := true }).1.in_failure
      = true := by
  decide

/-- C3 (amended): a successful poll with a non-empty row list, a known
label and a fresh end-instant clears in_failure back to false — even when
the end-instant is not strictly newer than last_applied_to — provided that
when the row does pass the strictly-newer guard its From timestamp also
parses (no exception interrupts the cycle). -/
theorem C3_theorem (now : Int) (rs : List Row) (latest : Row) (v : String) (t : Int)
    (s : LoopState)
    (hlast : rs.getLast? = some latest)
    (hv : latest.Value = some v)
    (hknown : (VALUE_MAP v).isSome = true)
    (ht : iso_utc latest.To = some t)
    (hfresh : isStale now t = false)
    (hfrom : newer s.last_to t = true → (iso_utc latest.From).isSome = true) :
    (step now (FetchOutcome.rows rs) s).1.in_failure = false := by
  unfold step
  repeat' split
  all_goals simp_all [newer]

theorem C3_witness :
    (step (cT + 34) (FetchOutcome.rows [cRowA])
      { last_to := some cT, in_failure := true, first_after_start := false }).1.in_failure
      = false :=
  C3_theorem (cT + 34) [cRowA] cRowA "BLUE" cT
    { last_to := some cT, in_failure := true, first_after_start := false }
    (by decide) (by decide) (by decide) (by decide) (by decide) (by decide)

/-- C4: processing a row whose parsed end-instant equals last_applied_to
changes nothing — last_to is untouched and neither an LED state render nor
a settle hold is emitted; conversely a cycle renders a state or holds only
when the latest row's end-instant passes the guard of line 164 (no prior
value, or strictly newer). -/
theorem C4_theorem :
    (∀ (now : Int) (fo : FetchOutcome) (s : LoopState) (t : Int),
      s.last_to = some t → latestTo fo = some t →
      ((step now fo s).1.last_to = s.last_to ∧
       countStates (step now fo s).2 = 0 ∧
       countHolds (step now fo s).2 = 0)) ∧
    (∀ (now : Int) (fo : FetchOutcome) (s : LoopState),
      (0 < countStates (step now fo s).2 ∨ 0 < countHolds (step now fo s).2) →
      ∃ t, latestTo fo = some t ∧ newer s.last_to t = true) := by
  constructor
  · intro now fo s t hl hTo
    unfold step
    repeat' split
    all_goals simp_all [latestTo, newer, countStates, countHolds]
  · intro now fo s h
    unfold step at h
    repeat' split at h
    all_goals simp_all [latestTo, newer, countStates, countHolds]

theorem C4_witness :
    ((step (cT + 34) (FetchOutcome.rows [cRowA])
        { last_to := some cT, in_failure := false, first_after_start := false }).1.last_to
      = ({ last_to := some cT, in_failure := false,
           first_after_start := false } : LoopState).last_to) ∧
    countStates (step (cT + 34) (FetchOutcome.rows [cRowA])
      { last_to := some cT, in_failure := false, first_after_start := false }).2 = 0 ∧
    countHolds (step (cT + 34) (FetchOutcome.rows [cRowA])
      { last_to := some cT, in_failure := false, first_after_start := false }).2 = 0 :=
  C4_theorem.1 (cT + 34) (FetchOutcome.rows [cRowA])
    { last_to := some cT, in_failure := false, first_after_start := false } cT
    rfl (by decide)

end TrafficLight
